import Mathlib

/-!
# pebble-generic-weather: the weather session manager

A shallow embedding of `src/c/pebble-generic-weather.c`.

* The module's file-scope statics (`s_info`, `s_callback`, `s_status`, `s_api_key`,
  `s_provider`, `s_coordinates`, `s_feels_like`, `s_event_handle`) are the fields of `State`.
* Pointers are `Option`s (`none` is `NULL`).  Dereferencing `NULL`, calling through a `NULL`
  function pointer and running `strlen` off the end of `s_api_key` are faults: the
  operation returns `none`.
* Calls into the Pebble SDK and into the client's callback are recorded, in order, in
  `State.trace`; what the SDK answers (connection state, `AppMessageResult`s, the clock,
  what `malloc` hands out) is passed to the operation as an argument.  A callback is client
  code: the module's view of it is the call, with the pointer and the status it passes.
* `include/pebble-generic-weather.h` and the generated message keys are not in the source
  file.  The names the source uses from them are declared here; the values and field types it
  cannot show are the fields of `Header`.
* Persistent storage is `State.persist`, a list of key/value bindings; a value is the image
  of a record, and a write stores it.
-/

namespace GenericWeather

/-! ## Machine integers -/

/-- Conversion of an integer to a signed two's-complement type of `bits` bits. -/
def wrapSigned (bits : Nat) (v : Int) : Int :=
  (v + 2 ^ (bits - 1)) % 2 ^ bits - 2 ^ (bits - 1)

/-- The cast `(int16_t)v`. -/
def int16_t (v : Int) : Int := wrapSigned 16 v

/-- The cast `(int32_t)v`. -/
def int32_t (v : Int) : Int := wrapSigned 32 v

/-! ## C strings -/

/-- The characters of a C string held in `buf`: everything before the first NUL. -/
def cstr (buf : List Nat) : List Nat := buf.takeWhile (fun c => c ≠ 0)

/-- The function `strlen` on a buffer: the index of the first NUL; `none` when the buffer
holds no NUL (the scan leaves the array). -/
def strlen : List Nat → Option Nat
  | [] => none
  | c :: rest => if c = 0 then some 0 else (strlen rest).map (fun n => n + 1)

/-- The function `strncpy(dst, src, n)`: the first `n` bytes of `dst` become the characters
of `src` (at most `n` of them), padded with NULs; the rest of `dst` is kept. -/
def strncpy (dst src : List Nat) (n : Nat) : List Nat :=
  let body := (cstr src).take n
  body ++ List.replicate (n - body.length) 0 ++ dst.drop n

/-! ## Messages -/

/-- Modelled from the spec: the generated `MESSAGE_KEY_GW_*` constants (the build assigns
each named key its own number; the generated table is not part of the source file).
`other n` stands for any key that is none of them. -/
inductive MessageKey where
  | GW_REPLY | GW_DESCRIPTION | GW_NAME | GW_TEMPK | GW_DAY | GW_CONDITIONCODE
  | GW_SUNRISE | GW_SUNSET | GW_WINDDIR | GW_WINDSPEED | GW_PRESSURE | GW_HUMIDITY
  | GW_BADKEY | GW_LOCATIONUNAVAILABLE
  | GW_REQUEST | GW_APIKEY | GW_PROVIDER | GW_LATITUDE | GW_LONGITUDE | GW_FEELS_LIKE
  | other (n : Nat)
  deriving DecidableEq

/-- The union `tuple->value`, read through the two members the module uses. -/
structure TupleValue where
  cstring : List Nat
  int32 : Int
  deriving DecidableEq

/-- An inbound `Tuple`. -/
structure Tuple where
  key : MessageKey
  value : TupleValue
  deriving DecidableEq

/-- An inbound dictionary, in message order. -/
abbrev DictionaryIterator := List Tuple

/-- The function `dict_find`: the first tuple with the key, or `NULL`. -/
def dict_find (iter : DictionaryIterator) (key : MessageKey) : Option Tuple :=
  iter.find? (fun t => decide (t.key = key))

/-- One `dict_write_*` call on the outbox dictionary. -/
inductive DictWrite where
  | uint8 (key : MessageKey) (value : Nat)
  | cstring (key : MessageKey) (value : List Nat)
  | int32 (key : MessageKey) (value : Int)
  | int8 (key : MessageKey) (value : Int)
  deriving DecidableEq

/-- The key a `dict_write_*` call writes. -/
def DictWrite.key : DictWrite → MessageKey
  | .uint8 k _ => k
  | .cstring k _ => k
  | .int32 k _ => k
  | .int8 k _ => k

/-- The type `AppMessageResult`: `APP_MSG_OK` or some error code. -/
inductive AppMessageResult where
  | APP_MSG_OK
  | error (code : Nat)
  deriving DecidableEq

/-! ## The data model -/

/-- Modelled from the spec: the enumeration `GenericWeatherStatus` of the absent header,
with the seven constants of §3, each of which the source file assigns to `s_status`. -/
inductive GenericWeatherStatus where
  | NotYetFetched | BluetoothDisconnected | Pending | Failed | Available | BadKey
  | LocationUnavailable
  deriving DecidableEq

/-- Modelled from the spec: the struct `GenericWeatherCoordinates` of the absent header, a
latitude/longitude pair (§3); `fetch` compares and writes both as `int32_t`. -/
structure GenericWeatherCoordinates where
  latitude : Int
  longitude : Int
  deriving DecidableEq

/-- Modelled from the spec: the struct `GenericWeatherInfo`, declared in
`include/pebble-generic-weather.h` (not part of the source file).  The fields are those the
handler assigns; the two texts are byte buffers, the rest are integers (§3).  The three
temperatures are `int16_t` fields, the type line 27 casts to before it stores `temp_k`. -/
structure GenericWeatherInfo where
  description : List Nat
  name : List Nat
  temp_k : Int
  temp_c : Int
  temp_f : Int
  timestamp : Int
  day : Bool
  condition : Int
  timesunrise : Int
  timesunset : Int
  winddir : Int
  windspeed : Int
  pressure : Int
  humidity : Int
  deriving DecidableEq

/-- What `include/pebble-generic-weather.h` declares and the source file uses without
defining: the two macros, the enum constant, and, for each integer field of
`GenericWeatherInfo` other than the temperatures, the conversion an assignment to it
performs (the conversion to the field's declared type). -/
structure Header where
  GENERIC_WEATHER_BUFFER_SIZE : Nat
  GenericWeatherProviderUnknown : Int
  GENERIC_WEATHER_GPS_LOCATION : GenericWeatherCoordinates
  to_timestamp : Int → Int
  to_condition : Int → Int
  to_timesunrise : Int → Int
  to_timesunset : Int → Int
  to_winddir : Int → Int
  to_windspeed : Int → Int
  to_pressure : Int → Int
  to_humidity : Int → Int

/-- A `GenericWeatherCallback *`: the address of a client function. -/
abbrev GenericWeatherCallback := Nat

/-- An observable call out of the module, as recorded in `State.trace`. -/
inductive Effect where
  | callback (cb : GenericWeatherCallback) (info : Option GenericWeatherInfo)
      (status : GenericWeatherStatus)
  | app_message_outbox_begin (result : AppMessageResult)
  | dict_write (w : DictWrite)
  | app_message_outbox_send (result : AppMessageResult)
  | events_app_message_request_inbox_size (size : Nat)
  | events_app_message_request_outbox_size (size : Nat)
  | events_app_message_register_inbox_received (handle : Nat)
  | events_app_message_unsubscribe (handle : Nat)
  deriving DecidableEq

/-- The module's statics, the persistent storage it writes to, and the calls made so far. -/
structure State where
  s_info : Option GenericWeatherInfo
  s_callback : Option GenericWeatherCallback
  s_status : GenericWeatherStatus
  s_api_key : List Nat
  s_provider : Int
  s_coordinates : GenericWeatherCoordinates
  s_feels_like : Bool
  s_event_handle : Nat
  persist : List (Nat × GenericWeatherInfo)
  trace : List Effect
  deriving DecidableEq

/-- Record one call in the trace. -/
def emit (e : Effect) (s : State) : State :=
  { s with trace := s.trace ++ [e] }

/-- Record several calls in the trace, in order. -/
def emits (es : List Effect) (s : State) : State :=
  { s with trace := s.trace ++ es }

/-- The call `s_callback(s_info, s_status)`; a fault when no callback is stored. -/
def call_callback (s : State) : Option State :=
  match s.s_callback with
  | none => none
  | some cb => some (emit (.callback cb s.s_info s.s_status) s)

/-! ## The inbound handler -/

/-- Lines 20-54 of `inbox_received_handler`: the assignments to `*s_info` in the reply
branch.  Each `dict_find` result is dereferenced unchecked. -/
def read_reply (h : Header) (now : Int) (iter : DictionaryIterator)
    (info : GenericWeatherInfo) : Option GenericWeatherInfo := do
  let desc_tuple ← dict_find iter .GW_DESCRIPTION
  let description := strncpy info.description desc_tuple.value.cstring
    h.GENERIC_WEATHER_BUFFER_SIZE
  let name_tuple ← dict_find iter .GW_NAME
  let name := strncpy info.name name_tuple.value.cstring h.GENERIC_WEATHER_BUFFER_SIZE
  let temp_tuple ← dict_find iter .GW_TEMPK
  let temp_k := int16_t temp_tuple.value.int32
  let temp_c := int16_t (temp_k - 273)
  let temp_f := int16_t (Int.tdiv (temp_c * 9) 5 + 32)
  let timestamp := h.to_timestamp now
  let day_tuple ← dict_find iter .GW_DAY
  let day := decide (day_tuple.value.int32 = 1)
  let condition_tuple ← dict_find iter .GW_CONDITIONCODE
  let condition := h.to_condition condition_tuple.value.int32
  let sunrise_tuple ← dict_find iter .GW_SUNRISE
  let timesunrise := h.to_timesunrise sunrise_tuple.value.int32
  let sunset_tuple ← dict_find iter .GW_SUNSET
  let timesunset := h.to_timesunset sunset_tuple.value.int32
  let winddir_tuple ← dict_find iter .GW_WINDDIR
  let winddir := h.to_winddir winddir_tuple.value.int32
  let windspeed_tuple ← dict_find iter .GW_WINDSPEED
  let windspeed := h.to_windspeed windspeed_tuple.value.int32
  let pressure_tuple ← dict_find iter .GW_PRESSURE
  let pressure := h.to_pressure pressure_tuple.value.int32
  let humidity_tuple ← dict_find iter .GW_HUMIDITY
  let humidity := h.to_humidity humidity_tuple.value.int32
  pure { info with
         description := description, name := name, temp_k := temp_k, temp_c := temp_c,
         temp_f := temp_f, timestamp := timestamp, day := day, condition := condition,
         timesunrise := timesunrise, timesunset := timesunset, winddir := winddir,
         windspeed := windspeed, pressure := pressure, humidity := humidity }

/-- The reply branch of `inbox_received_handler` (lines 18-58). -/
def handle_reply (h : Header) (now : Int) (iter : DictionaryIterator) (s : State) :
    Option State :=
  match dict_find iter .GW_REPLY with
  | none => some s
  | some _ => do
    let info ← s.s_info
    let info ← read_reply h now iter info
    call_callback { s with s_info := some info, s_status := .Available }

/-- One of the two error branches of `inbox_received_handler` (lines 60-64, 66-70). -/
def handle_marker (key : MessageKey) (status : GenericWeatherStatus)
    (iter : DictionaryIterator) (s : State) : Option State :=
  match dict_find iter key with
  | none => some s
  | some _ => call_callback { s with s_status := status }

/-- The function `inbox_received_handler`; `now` is what `time(NULL)` returns. -/
def inbox_received_handler (h : Header) (now : Int) (iter : DictionaryIterator)
    (s : State) : Option State := do
  let s ← handle_reply h now iter s
  let s ← handle_marker .GW_BADKEY .BadKey iter s
  handle_marker .GW_LOCATIONUNAVAILABLE .LocationUnavailable iter s

/-! ## The outbound request -/

/-- The function `fail_and_callback`. -/
def fail_and_callback (s : State) : Option State :=
  call_callback { s with s_status := .Failed }

/-- The static function `fetch`; `begin_result` and `send_result` are what
`app_message_outbox_begin` and `app_message_outbox_send` return. -/
def fetch (h : Header) (begin_result send_result : AppMessageResult) (s : State) :
    Option (Bool × State) :=
  let s := emit (.app_message_outbox_begin begin_result) s
  if begin_result ≠ .APP_MSG_OK then
    (fail_and_callback s).map (fun s => (false, s))
  else do
    let s := emit (.dict_write (.uint8 .GW_REQUEST 1)) s
    let len ← strlen s.s_api_key
    let s := if len > 0 then
        emit (.dict_write (.cstring .GW_APIKEY (cstr s.s_api_key))) s
      else s
    let s := if s.s_provider ≠ h.GenericWeatherProviderUnknown then
        emit (.dict_write (.int32 .GW_PROVIDER s.s_provider)) s
      else s
    let s := if s.s_coordinates.latitude ≠ int32_t 0xFFFFFFFF
          ∧ s.s_coordinates.longitude ≠ int32_t 0xFFFFFFFF then
        emit (.dict_write (.int32 .GW_LONGITUDE s.s_coordinates.longitude))
          (emit (.dict_write (.int32 .GW_LATITUDE s.s_coordinates.latitude)) s)
      else s
    let s := if s.s_feels_like then
        emit (.dict_write (.int8 .GW_FEELS_LIKE (if s.s_feels_like then 1 else 0))) s
      else s
    let s := emit (.app_message_outbox_send send_result) s
    if send_result ≠ .APP_MSG_OK then
      (fail_and_callback s).map (fun s => (false, s))
    else
      (call_callback { s with s_status := .Pending }).map (fun s => (true, s))

/-! ## The public operations -/

/-- The function `generic_weather_init`; `mem` is what `malloc` returns (`NULL`, or a block
with whatever contents), `handle` what the registration returns.  A block held before is
freed and its pointer overwritten. -/
def generic_weather_init (h : Header) (mem : Option GenericWeatherInfo) (handle : Nat)
    (s : State) : State :=
  let s := { s with s_info := mem }
  let s := { s with s_api_key := s.s_api_key.set 0 0 }
  let s := { s with s_provider := h.GenericWeatherProviderUnknown }
  let s := { s with s_coordinates := h.GENERIC_WEATHER_GPS_LOCATION }
  let s := { s with s_status := .NotYetFetched }
  let s := emit (.events_app_message_request_inbox_size 200) s
  let s := emit (.events_app_message_request_outbox_size 100) s
  let s := emit (.events_app_message_register_inbox_received handle) s
  { s with s_event_handle := handle }

/-- The function `generic_weather_set_api_key`. -/
def generic_weather_set_api_key (api_key : Option (List Nat)) (s : State) : State :=
  match api_key with
  | none => { s with s_api_key := s.s_api_key.set 0 0 }
  | some k => { s with s_api_key := strncpy s.s_api_key k 33 }

/-- The function `generic_weather_set_provider`. -/
def generic_weather_set_provider (provider : Int) (s : State) : State :=
  { s with s_provider := provider }

/-- The function `generic_weather_set_location`. -/
def generic_weather_set_location (coordinates : GenericWeatherCoordinates) (s : State) :
    State :=
  { s with s_coordinates := coordinates }

/-- The function `generic_weather_set_feels_like`. -/
def generic_weather_set_feels_like (feels_like : Bool) (s : State) : State :=
  { s with s_feels_like := feels_like }

/-- The function `generic_weather_fetch`; `connected` is what
`bluetooth_connection_service_peek` returns. -/
def generic_weather_fetch (h : Header) (connected : Bool)
    (begin_result send_result : AppMessageResult)
    (callback : Option GenericWeatherCallback) (s : State) : Option (Bool × State) :=
  match s.s_info with
  | none => some (false, s)
  | some _ =>
    match callback with
    | none => some (false, s)
    | some cb =>
      let s := { s with s_callback := some cb }
      if !connected then
        (call_callback { s with s_status := .BluetoothDisconnected }).map
          (fun s => (false, s))
      else
        fetch h begin_result send_result s

/-- The function `generic_weather_deinit`. -/
def generic_weather_deinit (s : State) : State :=
  match s.s_info with
  | none => s
  | some _ =>
    emit (.events_app_message_unsubscribe s.s_event_handle)
      { s with s_info := none, s_callback := none }

/-- The function `generic_weather_peek`. -/
def generic_weather_peek (s : State) : Option GenericWeatherInfo :=
  match s.s_info with
  | none => none
  | some info => some info

/-- The function `persist_exists`. -/
def persist_exists (store : List (Nat × GenericWeatherInfo)) (key : Nat) : Bool :=
  (store.lookup key).isSome

/-- The function `persist_write_data` for a record image: the value under `key` is replaced. -/
def persist_write_data (store : List (Nat × GenericWeatherInfo)) (key : Nat)
    (info : GenericWeatherInfo) : List (Nat × GenericWeatherInfo) :=
  (key, info) :: store.filter (fun kv => kv.1 ≠ key)

/-- The function `persist_read_data` for a record image: the stored value when there is
one, else the destination as it was. -/
def persist_read_data (store : List (Nat × GenericWeatherInfo)) (key : Nat)
    (dst : GenericWeatherInfo) : GenericWeatherInfo :=
  (store.lookup key).getD dst

/-- The function `generic_weather_save`. -/
def generic_weather_save (key : Nat) (s : State) : State :=
  match s.s_info with
  | none => s
  | some info => { s with persist := persist_write_data s.persist key info }

/-- The function `generic_weather_load`. -/
def generic_weather_load (key : Nat) (s : State) : State :=
  match s.s_info with
  | none => s
  | some info =>
    if persist_exists s.persist key then
      { s with s_info := some (persist_read_data s.persist key info) }
    else s

/-! ## Observations on traces, and concrete data for evaluating the model -/

/-- The callback invocations recorded in a trace, in order: which function was called, the
record `s_info` pointed to at the call, and the status passed. -/
def callbacks : List Effect →
    List (GenericWeatherCallback × Option GenericWeatherInfo × GenericWeatherStatus)
  | [] => []
  | .callback cb info status :: rest => (cb, info, status) :: callbacks rest
  | _ :: rest => callbacks rest

/-- The `dict_write_*` calls recorded in a trace, in order. -/
def dict_writes : List Effect → List DictWrite
  | [] => []
  | .dict_write w :: rest => w :: dict_writes rest
  | _ :: rest => dict_writes rest

/-- The request message in the specification's words (§4.1, §6): the request marker with
value 1, then the API key text if it is non-empty, the provider code if the provider is not
the unknown one, latitude then longitude if both differ from the all-ones sentinel
(0xFFFFFFFF, which as an `int32_t` is -1), and the feels-like flag with value 1 if it is
set. -/
def spec_request_message (unknown : Int) (api_key : List Nat) (provider : Int)
    (coordinates : GenericWeatherCoordinates) (feels_like : Bool) : List DictWrite :=
  [DictWrite.uint8 .GW_REQUEST 1]
  ++ (if api_key ≠ [] then [DictWrite.cstring .GW_APIKEY api_key] else [])
  ++ (if provider ≠ unknown then [DictWrite.int32 .GW_PROVIDER provider] else [])
  ++ (if coordinates.latitude ≠ -1 ∧ coordinates.longitude ≠ -1 then
        [DictWrite.int32 .GW_LATITUDE coordinates.latitude,
         DictWrite.int32 .GW_LONGITUDE coordinates.longitude] else [])
  ++ (if feels_like then [DictWrite.int8 .GW_FEELS_LIKE 1] else [])

/-- A header to evaluate the model with: 32-byte text buffers, provider code 255 for the
unknown provider, the all-ones coordinates, and 32-bit fields for the integers other than
the temperatures. -/
def sampleHeader : Header where
  GENERIC_WEATHER_BUFFER_SIZE := 32
  GenericWeatherProviderUnknown := 255
  GENERIC_WEATHER_GPS_LOCATION :=
    { latitude := int32_t 0xFFFFFFFF, longitude := int32_t 0xFFFFFFFF }
  to_timestamp := int32_t
  to_condition := int32_t
  to_timesunrise := int32_t
  to_timesunset := int32_t
  to_winddir := int32_t
  to_windspeed := int32_t
  to_pressure := int32_t
  to_humidity := int32_t

/-- A record with every byte zero. -/
def zeroInfo : GenericWeatherInfo where
  description := List.replicate 32 0
  name := List.replicate 32 0
  temp_k := 0
  temp_c := 0
  temp_f := 0
  timestamp := 0
  day := false
  condition := 0
  timesunrise := 0
  timesunset := 0
  winddir := 0
  windspeed := 0
  pressure := 0
  humidity := 0

/-- The statics at program start (all zero), with empty storage and no call made yet. -/
def boot : State where
  s_info := none
  s_callback := none
  s_status := .NotYetFetched
  s_api_key := List.replicate 33 0
  s_provider := 0
  s_coordinates := { latitude := 0, longitude := 0 }
  s_feels_like := false
  s_event_handle := 0
  persist := []
  trace := []

/-- The session right after `generic_weather_init` at program start. -/
def freshSession : State := generic_weather_init sampleHeader (some zeroInfo) 1 boot

/-- The fresh session with callback `7` stored, as a fetch leaves it, and the record of calls
started afresh. -/
def ready : State := { freshSession with s_callback := some 7, trace := [] }

/-- The fresh session configured through the setters: key "abc", provider 0, a location and
the feels-like flag. -/
def configured : State :=
  generic_weather_set_feels_like true
    (generic_weather_set_location { latitude := 5237403, longitude := 489697 }
      (generic_weather_set_provider 0
        (generic_weather_set_api_key (some [97, 98, 99]) freshSession)))

/-- An inbound tuple carrying an integer. -/
def intTuple (key : MessageKey) (v : Int) : Tuple :=
  { key := key, value := { cstring := [], int32 := v } }

/-- An inbound tuple carrying a text. -/
def textTuple (key : MessageKey) (text : List Nat) : Tuple :=
  { key := key, value := { cstring := text, int32 := 0 } }

/-- A complete reply: 300 K, daytime, with the texts "Sun" and "Oslo". -/
def sampleReply : DictionaryIterator :=
  [ intTuple .GW_REPLY 1,
    textTuple .GW_DESCRIPTION [83, 117, 110, 0],
    textTuple .GW_NAME [79, 115, 108, 111, 0],
    intTuple .GW_TEMPK 300,
    intTuple .GW_DAY 1,
    intTuple .GW_CONDITIONCODE 0,
    intTuple .GW_SUNRISE 1700000000,
    intTuple .GW_SUNSET 1700040000,
    intTuple .GW_WINDDIR 180,
    intTuple .GW_WINDSPEED 5,
    intTuple .GW_PRESSURE 1013,
    intTuple .GW_HUMIDITY 40 ]

/-- The sample reply with 272 K in place of 300 K. -/
def coldReply : DictionaryIterator :=
  sampleReply.map (fun t => if t.key = .GW_TEMPK then intTuple .GW_TEMPK 272 else t)

/-- The sample reply with 18460 K in place of 300 K. -/
def hotReply : DictionaryIterator :=
  sampleReply.map (fun t => if t.key = .GW_TEMPK then intTuple .GW_TEMPK 18460 else t)

/-- The integer carried under `key` (0 when the message has no such tuple). -/
def int_field (iter : DictionaryIterator) (key : MessageKey) : Int :=
  match dict_find iter key with
  | some t => t.value.int32
  | none => 0

/-- The text carried under `key` (empty when the message has no such tuple). -/
def text_field (iter : DictionaryIterator) (key : MessageKey) : List Nat :=
  match dict_find iter key with
  | some t => t.value.cstring
  | none => []

/-- The keys a reply must carry: the reply marker and the twelve fields. -/
def reply_keys : List MessageKey :=
  [.GW_REPLY, .GW_DESCRIPTION, .GW_NAME, .GW_TEMPK, .GW_DAY, .GW_CONDITIONCODE, .GW_SUNRISE,
   .GW_SUNSET, .GW_WINDDIR, .GW_WINDSPEED, .GW_PRESSURE, .GW_HUMIDITY]

/-- The message carries the reply marker and all required fields. -/
def complete_reply (iter : DictionaryIterator) : Prop :=
  ∀ key ∈ reply_keys, (dict_find iter key).isSome = true

instance (iter : DictionaryIterator) : Decidable (complete_reply iter) := by
  unfold complete_reply
  infer_instance

/-- The record a complete reply describes in the specification's words, field by field
(§4.1): the two texts copied into the old buffers, the temperature in Kelvin and the two
derived from it, each stored in its 16-bit field, the device clock, the day flag as equality
with 1, and the remaining integers, each converted to its field's declared type. -/
def spec_reply_record (h : Header) (now : Int) (iter : DictionaryIterator)
    (old : GenericWeatherInfo) : GenericWeatherInfo where
  description := strncpy old.description (text_field iter .GW_DESCRIPTION)
    h.GENERIC_WEATHER_BUFFER_SIZE
  name := strncpy old.name (text_field iter .GW_NAME) h.GENERIC_WEATHER_BUFFER_SIZE
  temp_k := int16_t (int_field iter .GW_TEMPK)
  temp_c := int16_t (int16_t (int_field iter .GW_TEMPK) - 273)
  temp_f := int16_t
    (Int.tdiv (int16_t (int16_t (int_field iter .GW_TEMPK) - 273) * 9) 5 + 32)
  timestamp := h.to_timestamp now
  day := decide (int_field iter .GW_DAY = 1)
  condition := h.to_condition (int_field iter .GW_CONDITIONCODE)
  timesunrise := h.to_timesunrise (int_field iter .GW_SUNRISE)
  timesunset := h.to_timesunset (int_field iter .GW_SUNSET)
  winddir := h.to_winddir (int_field iter .GW_WINDDIR)
  windspeed := h.to_windspeed (int_field iter .GW_WINDSPEED)
  pressure := h.to_pressure (int_field iter .GW_PRESSURE)
  humidity := h.to_humidity (int_field iter .GW_HUMIDITY)

/-- The ready session holding the record of the sample reply. -/
def answered : State :=
  { ready with s_info := some (spec_reply_record sampleHeader 1700000123 sampleReply zeroInfo) }

/-! ## Lemmas on the helpers -/

theorem dict_find_eq_none_of_forall (iter : DictionaryIterator) (key : MessageKey)
    (hk : ∀ t ∈ iter, t.key ≠ key) : dict_find iter key = none := by
  unfold dict_find
  rw [List.find?_eq_none]
  intro t ht
  simpa using hk t ht

theorem handle_marker_absent (key : MessageKey) (status : GenericWeatherStatus)
    (iter : DictionaryIterator) (s : State) (hk : dict_find iter key = none) :
    handle_marker key status iter s = some s := by
  simp [handle_marker, hk]

theorem handle_marker_present (key : MessageKey) (status : GenericWeatherStatus)
    (iter : DictionaryIterator) (s : State) (t : Tuple) (cb : GenericWeatherCallback)
    (hk : dict_find iter key = some t) (hcb : s.s_callback = some cb) :
    handle_marker key status iter s
      = some { s with s_status := status,
                      trace := s.trace ++ [Effect.callback cb s.s_info status] } := by
  simp [handle_marker, hk, call_callback, hcb, emit]

theorem handle_reply_absent (h : Header) (now : Int) (iter : DictionaryIterator) (s : State)
    (hk : dict_find iter .GW_REPLY = none) : handle_reply h now iter s = some s := by
  simp [handle_reply, hk]

theorem dict_find_isSome_of_exists (iter : DictionaryIterator) (key : MessageKey)
    (hk : ∃ t ∈ iter, t.key = key) : ∃ t, dict_find iter key = some t := by
  obtain ⟨t, ht, hkey⟩ := hk
  have hs : (dict_find iter key).isSome = true := by
    unfold dict_find
    rw [List.find?_isSome]
    exact ⟨t, ht, by simpa using hkey⟩
  exact Option.isSome_iff_exists.mp hs

theorem read_reply_complete (h : Header) (now : Int) (iter : DictionaryIterator)
    (old : GenericWeatherInfo) (hc : complete_reply iter) :
    read_reply h now iter old = some (spec_reply_record h now iter old) := by
  have key : ∀ k ∈ reply_keys, ∃ t, dict_find iter k = some t :=
    fun k hk => Option.isSome_iff_exists.mp (hc k hk)
  obtain ⟨t1, h1⟩ := key .GW_DESCRIPTION (by decide)
  obtain ⟨t2, h2⟩ := key .GW_NAME (by decide)
  obtain ⟨t3, h3⟩ := key .GW_TEMPK (by decide)
  obtain ⟨t4, h4⟩ := key .GW_DAY (by decide)
  obtain ⟨t5, h5⟩ := key .GW_CONDITIONCODE (by decide)
  obtain ⟨t6, h6⟩ := key .GW_SUNRISE (by decide)
  obtain ⟨t7, h7⟩ := key .GW_SUNSET (by decide)
  obtain ⟨t8, h8⟩ := key .GW_WINDDIR (by decide)
  obtain ⟨t9, h9⟩ := key .GW_WINDSPEED (by decide)
  obtain ⟨t10, h10⟩ := key .GW_PRESSURE (by decide)
  obtain ⟨t11, h11⟩ := key .GW_HUMIDITY (by decide)
  simp [read_reply, spec_reply_record, int_field, text_field, h1, h2, h3, h4, h5, h6, h7, h8, h9,
    h10, h11]

theorem handle_reply_complete (h : Header) (now : Int) (iter : DictionaryIterator)
    (s : State) (old : GenericWeatherInfo) (cb : GenericWeatherCallback)
    (hc : complete_reply iter) (hinfo : s.s_info = some old) (hcb : s.s_callback = some cb) :
    handle_reply h now iter s
      = some { s with s_info := some (spec_reply_record h now iter old),
                      s_status := .Available,
                      trace := s.trace ++
                        [Effect.callback cb (some (spec_reply_record h now iter old))
                          .Available] } := by
  obtain ⟨t, ht⟩ := Option.isSome_iff_exists.mp (hc .GW_REPLY (by decide))
  simp [handle_reply, ht, hinfo, read_reply_complete h now iter old hc, call_callback, hcb, emit]

theorem handle_marker_keeps (key : MessageKey) (status : GenericWeatherStatus)
    (iter : DictionaryIterator) (s : State) (cb : GenericWeatherCallback)
    (hcb : s.s_callback = some cb) :
    ∃ s', handle_marker key status iter s = some s' ∧ s'.s_info = s.s_info
      ∧ s'.s_callback = some cb := by
  unfold handle_marker
  cases hk : dict_find iter key with
  | none => exact ⟨s, rfl, rfl, hcb⟩
  | some t => simp [call_callback, hcb, emit]

theorem int16_t_of_range (v : Int) (h0 : -32768 ≤ v) (h1 : v ≤ 32767) : int16_t v = v := by
  unfold int16_t wrapSigned
  norm_num
  omega

theorem fahrenheit_in_int16 (c : Int) (h0 : -273 ≤ c) (h1 : c ≤ 18186) :
    -32768 ≤ Int.tdiv (c * 9) 5 + 32 ∧ Int.tdiv (c * 9) 5 + 32 ≤ 32767 := by
  rcases le_or_lt 0 c with hc | hc
  · rw [Int.tdiv_eq_ediv (by omega) (by decide)]
    omega
  · have hq : Int.tdiv (c * 9) 5 = -((-(c * 9)) / 5) := by
      rw [← Int.tdiv_eq_ediv (by omega) (by decide), Int.neg_tdiv, neg_neg]
    rw [hq]
    omega

theorem int32_t_all_ones : int32_t 0xFFFFFFFF = -1 := by
  decide

theorem strlen_of_mem (buf : List Nat) (hz : 0 ∈ buf) : ∃ n, strlen buf = some n := by
  induction buf with
  | nil => simp at hz
  | cons c rest ih =>
    by_cases hc : c = 0
    · exact ⟨0, by simp [strlen, hc]⟩
    · have hrest : 0 ∈ rest := by
        rcases List.mem_cons.mp hz with h0 | h0
        · exact absurd h0.symm hc
        · exact h0
      obtain ⟨n, hn⟩ := ih hrest
      exact ⟨n + 1, by simp [strlen, hc, hn]⟩

theorem strlen_pos_iff (buf : List Nat) (n : Nat) (hn : strlen buf = some n) :
    0 < n ↔ cstr buf ≠ [] := by
  cases buf with
  | nil => simp [strlen] at hn
  | cons c rest =>
    by_cases hc : c = 0
    · simp [strlen, hc] at hn
      simp [cstr, hc, ← hn]
    · cases hr : strlen rest with
      | none => simp [strlen, hc, hr] at hn
      | some m =>
        simp [strlen, hc, hr] at hn
        simp [cstr, hc, ← hn]

theorem callbacks_append (xs ys : List Effect) :
    callbacks (xs ++ ys) = callbacks xs ++ callbacks ys := by
  induction xs with
  | nil => rfl
  | cons e rest ih => cases e <;> simp [callbacks, ih]

theorem callbacks_dict_write (ws : List DictWrite) :
    callbacks (ws.map Effect.dict_write) = [] := by
  induction ws with
  | nil => rfl
  | cons w rest ih => simp [callbacks, ih]

theorem emit_eq_emits (e : Effect) (s : State) : emit e s = emits [e] s := rfl

theorem emits_emits (a b : List Effect) (s : State) : emits a (emits b s) = emits (b ++ a) s := by
  simp [emits]

theorem ite_emit (c : Prop) [Decidable c] (e : Effect) (s : State) :
    (if c then emit e s else s) = emits (if c then [e] else []) s := by
  split <;> simp [emits, emit]

theorem ite_emit_emit (c : Prop) [Decidable c] (e1 e2 : Effect) (s : State) :
    (if c then emit e2 (emit e1 s) else s) = emits (if c then [e1, e2] else []) s := by
  split <;> simp [emits, emit]

theorem emits_s_api_key (es : List Effect) (s : State) :
    (emits es s).s_api_key = s.s_api_key := rfl
theorem emits_s_provider (es : List Effect) (s : State) :
    (emits es s).s_provider = s.s_provider := rfl
theorem emits_s_coordinates (es : List Effect) (s : State) :
    (emits es s).s_coordinates = s.s_coordinates := rfl
theorem emits_s_feels_like (es : List Effect) (s : State) :
    (emits es s).s_feels_like = s.s_feels_like := rfl

theorem fetch_begun (h : Header) (send_result : AppMessageResult) (s : State)
    (cb : GenericWeatherCallback) (n : Nat) (hcb : s.s_callback = some cb)
    (hn : strlen s.s_api_key = some n) :
    fetch h .APP_MSG_OK send_result s
      = some (decide (send_result = .APP_MSG_OK),
          { s with
            s_status := if send_result = .APP_MSG_OK then .Pending else .Failed,
            trace := s.trace ++ Effect.app_message_outbox_begin .APP_MSG_OK ::
              ((spec_request_message h.GenericWeatherProviderUnknown (cstr s.s_api_key)
                  s.s_provider s.s_coordinates s.s_feels_like).map Effect.dict_write
                ++ [Effect.app_message_outbox_send send_result,
                    Effect.callback cb s.s_info
                      (if send_result = .APP_MSG_OK then .Pending else .Failed)]) }) := by
  have hkey : 0 < n ↔ cstr s.s_api_key ≠ [] := strlen_pos_iff _ _ hn
  unfold fetch spec_request_message
  simp only [ite_emit_emit, ite_emit, emits_s_api_key, emits_s_provider,
    emits_s_coordinates, emits_s_feels_like]
  simp only [emit_eq_emits, emits_emits, emits_s_api_key, emits_s_provider,
    emits_s_coordinates, emits_s_feels_like, hn, fail_and_callback, ne_eq, not_true_eq_false,
    if_false, Option.bind_eq_bind, Option.some_bind, ite_false,
    Option.map_some']
  by_cases h6 : send_result = .APP_MSG_OK <;> cases h5 : s.s_feels_like <;>
    simp [call_callback, emits, emit, hcb, h6, h5, hkey, int32_t_all_ones,
      apply_ite (List.map Effect.dict_write)]

theorem generic_weather_fetch_begun (h : Header) (send_result : AppMessageResult) (s : State)
    (info : GenericWeatherInfo) (cb : GenericWeatherCallback)
    (hinfo : s.s_info = some info) (hkey : 0 ∈ s.s_api_key) :
    generic_weather_fetch h true .APP_MSG_OK send_result (some cb) s
      = some (decide (send_result = .APP_MSG_OK),
          { s with
            s_callback := some cb,
            s_status := if send_result = .APP_MSG_OK then .Pending else .Failed,
            trace := s.trace ++ Effect.app_message_outbox_begin .APP_MSG_OK ::
              ((spec_request_message h.GenericWeatherProviderUnknown (cstr s.s_api_key)
                  s.s_provider s.s_coordinates s.s_feels_like).map Effect.dict_write
                ++ [Effect.app_message_outbox_send send_result,
                    Effect.callback cb (some info)
                      (if send_result = .APP_MSG_OK then .Pending else .Failed)]) }) := by
  obtain ⟨n, hn⟩ := strlen_of_mem s.s_api_key hkey
  have hf := fetch_begun h send_result { s with s_callback := some cb } cb n rfl hn
  simp only [hinfo] at hf
  unfold generic_weather_fetch
  simp only [hinfo, Bool.not_true, Bool.false_eq_true, if_false]
  exact hf

theorem spec_request_message_no_api_key (unknown provider : Int)
    (coordinates : GenericWeatherCoordinates) (feels_like : Bool) :
    ∀ w ∈ spec_request_message unknown [] provider coordinates feels_like,
      w.key ≠ .GW_APIKEY := by
  intro w hw
  unfold spec_request_message at hw
  simp only [ne_eq, not_true_eq_false, if_false, List.append_nil, List.mem_append,
    List.mem_singleton] at hw
  rcases hw with ((hw | hw) | hw) | hw
  · subst hw; simp [DictWrite.key]
  · split at hw
    · simp at hw; subst hw; simp [DictWrite.key]
    · simp at hw
  · split at hw
    · simp at hw; rcases hw with hw | hw <;> subst hw <;> simp [DictWrite.key]
    · simp at hw
  · split at hw
    · simp at hw; subst hw; simp [DictWrite.key]
    · simp at hw

theorem cstr_set_zero (buf : List Nat) : cstr (buf.set 0 0) = [] := by
  cases buf <;> simp [cstr]

theorem zero_mem_set_zero (buf : List Nat) (hb : buf ≠ []) : 0 ∈ buf.set 0 0 := by
  cases buf with
  | nil => exact absurd rfl hb
  | cons c rest => simp

theorem spec_request_message_no_coordinates (unknown : Int) (api_key : List Nat)
    (provider : Int) (c : GenericWeatherCoordinates) (feels_like : Bool)
    (hc : c.latitude = -1 ∨ c.longitude = -1) :
    ∀ w ∈ spec_request_message unknown api_key provider c feels_like,
      w.key ≠ .GW_LATITUDE ∧ w.key ≠ .GW_LONGITUDE := by
  have hcond : ¬ (c.latitude ≠ -1 ∧ c.longitude ≠ -1) := by
    rintro ⟨h1, h2⟩
    rcases hc with hc | hc
    · exact h1 hc
    · exact h2 hc
  intro w hw
  unfold spec_request_message at hw
  simp only [hcond, if_false, List.append_nil, List.mem_append, List.mem_singleton] at hw
  rcases hw with ((hw | hw) | hw) | hw
  · subst hw; simp [DictWrite.key]
  · split at hw
    · simp at hw; subst hw; simp [DictWrite.key]
    · simp at hw
  · split at hw
    · simp at hw; subst hw; simp [DictWrite.key]
    · simp at hw
  · split at hw
    · simp at hw; subst hw; simp [DictWrite.key]
    · simp at hw

theorem spec_request_message_coordinates (unknown : Int) (api_key : List Nat)
    (provider : Int) (c : GenericWeatherCoordinates) (feels_like : Bool)
    (hc : c.latitude ≠ -1 ∧ c.longitude ≠ -1) :
    DictWrite.int32 .GW_LATITUDE c.latitude
        ∈ spec_request_message unknown api_key provider c feels_like
      ∧ DictWrite.int32 .GW_LONGITUDE c.longitude
        ∈ spec_request_message unknown api_key provider c feels_like := by
  unfold spec_request_message
  simp [hc]

/-! ## Claims -/

/-- C10: an inbound message that contains none of the three markers (reply, bad key,
location unavailable) is ignored whatever else it carries: the handler returns the state it
was given, so no callback is invoked and the record, the status, the stored callback and the
configuration are unchanged. -/
theorem inbox_received_handler_ignores_unmarked (h : Header) (now : Int)
    (iter : DictionaryIterator) (s : State)
    (hmarkers : ∀ t ∈ iter, t.key ≠ .GW_REPLY ∧ t.key ≠ .GW_BADKEY
      ∧ t.key ≠ .GW_LOCATIONUNAVAILABLE) :
    inbox_received_handler h now iter s = some s := by
  have h1 := dict_find_eq_none_of_forall iter .GW_REPLY (fun t ht => (hmarkers t ht).1)
  have h2 := dict_find_eq_none_of_forall iter .GW_BADKEY (fun t ht => (hmarkers t ht).2.1)
  have h3 := dict_find_eq_none_of_forall iter .GW_LOCATIONUNAVAILABLE
    (fun t ht => (hmarkers t ht).2.2)
  simp [inbox_received_handler, handle_reply_absent, handle_marker_absent, h1, h2, h3]

/-- Witness for C10: a message with a description and a temperature but no marker leaves
the uninitialized program-start state as it is. -/
theorem inbox_received_handler_ignores_unmarked_witness :
    inbox_received_handler sampleHeader 5
      [textTuple .GW_DESCRIPTION [83, 0], intTuple .GW_TEMPK 300, intTuple (.other 9) 1] boot
      = some boot :=
  inbox_received_handler_ignores_unmarked sampleHeader 5 _ boot (by decide)

/-- C1, as amended: in an initialized session with a stored callback, for a complete reply
whose Kelvin tuple holds K with 0 <= K <= 18459, the handler returns and leaves the record
with temp_k = K, temp_c = K - 273 and temp_f = ((K - 273) * 9 / 5) + 32, the division
truncating toward zero; up to 18459 K all three values fit their 16-bit fields. -/
theorem inbox_received_handler_temperatures (h : Header) (now : Int)
    (iter : DictionaryIterator) (s : State) (old : GenericWeatherInfo)
    (cb : GenericWeatherCallback) (K : Int)
    (hc : complete_reply iter) (hinfo : s.s_info = some old) (hcb : s.s_callback = some cb)
    (hK : int_field iter .GW_TEMPK = K) (h0 : 0 ≤ K) (h1 : K ≤ 18459) :
    ∃ s' info, inbox_received_handler h now iter s = some s' ∧ s'.s_info = some info
      ∧ info.temp_k = K ∧ info.temp_c = K - 273
      ∧ info.temp_f = Int.tdiv ((K - 273) * 9) 5 + 32 := by
  have hk16 : int16_t K = K := int16_t_of_range K (by omega) (by omega)
  have hc16 : int16_t (K - 273) = K - 273 :=
    int16_t_of_range (K - 273) (by omega) (by omega)
  have hfit := fahrenheit_in_int16 (K - 273) (by omega) (by omega)
  have hf16 : int16_t (Int.tdiv ((K - 273) * 9) 5 + 32) = Int.tdiv ((K - 273) * 9) 5 + 32 :=
    int16_t_of_range _ hfit.1 hfit.2
  obtain ⟨s2, hs2, hi2, hc2⟩ := handle_marker_keeps .GW_BADKEY .BadKey iter
    { s with s_info := some (spec_reply_record h now iter old), s_status := .Available,
             trace := s.trace
               ++ [Effect.callback cb (some (spec_reply_record h now iter old)) .Available] }
    cb hcb
  obtain ⟨s3, hs3, hi3, _⟩ := handle_marker_keeps .GW_LOCATIONUNAVAILABLE
    .LocationUnavailable iter s2 cb hc2
  refine ⟨s3, spec_reply_record h now iter old, ?_, ?_, ?_, ?_, ?_⟩
  · simp [inbox_received_handler, handle_reply_complete h now iter s old cb hc hinfo hcb,
      hs2, hs3]
  · rw [hi3, hi2]
  · simp [spec_reply_record, hK, hk16]
  · simp [spec_reply_record, hK, hk16, hc16]
  · simp [spec_reply_record, hK, hk16, hc16, hf16]

/-- Witness for C1 as amended: the sample reply carries 300 K and the record ends with
300 K, 27 °C and 80 °F; the cold reply carries 272 K and the record ends with -1 °C and
31 °F, the quotient -9 / 5 being -1. -/
theorem inbox_received_handler_temperatures_witness :
    (∃ s' info, inbox_received_handler sampleHeader 1700000123 sampleReply ready = some s'
        ∧ s'.s_info = some info ∧ info.temp_k = 300 ∧ info.temp_c = 27 ∧ info.temp_f = 80)
      ∧ (∃ s' info, inbox_received_handler sampleHeader 1700000123 coldReply ready = some s'
        ∧ s'.s_info = some info ∧ info.temp_k = 272 ∧ info.temp_c = -1 ∧ info.temp_f = 31) :=
  ⟨inbox_received_handler_temperatures sampleHeader 1700000123 sampleReply ready zeroInfo 7
      300 (by decide) (by decide) (by decide) (by decide) (by decide) (by decide),
   inbox_received_handler_temperatures sampleHeader 1700000123 coldReply ready zeroInfo 7
      272 (by decide) (by decide) (by decide) (by decide) (by decide) (by decide)⟩

/-- Counterexample to C1 as stated: 18460 K is a valid Kelvin value below 32767, the reply
is complete and the session has a record and a callback, yet the handler stores
temp_f = -32768 where the formula gives 32768, which a 16-bit field cannot hold; and the
same kind of reply handled right after initialization, before any callback is stored,
faults at the callback call instead of returning. -/
theorem inbox_received_handler_temperature_overflow :
    complete_reply hotReply ∧ int_field hotReply .GW_TEMPK = 18460
      ∧ ready.s_info = some zeroInfo ∧ ready.s_callback = some 7
      ∧ (inbox_received_handler sampleHeader 1700000123 hotReply ready).bind
          (fun s => s.s_info.map (fun info => (info.temp_k, info.temp_c, info.temp_f)))
        = some (18460, 18187, -32768)
      ∧ Int.tdiv ((18460 - 273) * 9) 5 + 32 = 32768
      ∧ complete_reply sampleReply ∧ freshSession.s_info = some zeroInfo
      ∧ freshSession.s_callback = none
      ∧ inbox_received_handler sampleHeader 1700000123 sampleReply freshSession = none := by
  decide

/-- C2, as amended: in an initialized session with a stored callback, a message that carries
the reply marker and all required fields, and neither the bad-key nor the
location-unavailable marker, makes the handler rewrite every field of the record from the
message, set the status to Available and invoke the callback exactly once, with the new
record and status Available; nothing else changes. -/
theorem inbox_received_handler_reply (h : Header) (now : Int) (iter : DictionaryIterator)
    (s : State) (old : GenericWeatherInfo) (cb : GenericWeatherCallback)
    (hc : complete_reply iter) (hinfo : s.s_info = some old) (hcb : s.s_callback = some cb)
    (hno : ∀ t ∈ iter, t.key ≠ .GW_BADKEY ∧ t.key ≠ .GW_LOCATIONUNAVAILABLE) :
    inbox_received_handler h now iter s
      = some { s with s_info := some (spec_reply_record h now iter old),
                      s_status := .Available,
                      trace := s.trace ++
                        [Effect.callback cb (some (spec_reply_record h now iter old))
                          .Available] } := by
  have h2 := dict_find_eq_none_of_forall iter .GW_BADKEY (fun t ht => (hno t ht).1)
  have h3 := dict_find_eq_none_of_forall iter .GW_LOCATIONUNAVAILABLE
    (fun t ht => (hno t ht).2)
  simp [inbox_received_handler, handle_reply_complete h now iter s old cb hc hinfo hcb,
    handle_marker_absent, h2, h3]

/-- Witness for C2 as amended: the sample reply, handled by the ready session. -/
theorem inbox_received_handler_reply_witness :
    inbox_received_handler sampleHeader 1700000123 sampleReply ready
      = some
          { ready with
            s_info := some (spec_reply_record sampleHeader 1700000123 sampleReply zeroInfo),
            s_status := .Available,
            trace := ready.trace ++ [Effect.callback 7
              (some (spec_reply_record sampleHeader 1700000123 sampleReply zeroInfo))
              .Available] } :=
  inbox_received_handler_reply sampleHeader 1700000123 sampleReply ready zeroInfo 7
    (by decide) (by decide) (by decide) (by decide)

/-- Counterexample to C2 as stated: a message with the reply marker, all required fields and
also the bad-key marker makes the handler invoke the callback twice, first with Available
and then with BadKey, and the status ends as BadKey. -/
theorem inbox_received_handler_reply_and_bad_key :
    complete_reply (sampleReply ++ [intTuple .GW_BADKEY 1])
      ∧ ready.s_info = some zeroInfo ∧ ready.s_callback = some 7
      ∧ (inbox_received_handler sampleHeader 1700000123
            (sampleReply ++ [intTuple .GW_BADKEY 1]) ready).map
          (fun s => ((callbacks s.trace).map (fun c => c.2.2), s.s_status))
        = some ([.Available, .BadKey], .BadKey) := by
  decide

/-- C6, as amended: in a session with a stored callback, a message that carries the bad-key
marker and neither the reply marker nor the location-unavailable marker makes the handler
set the status to BadKey and invoke the callback exactly once, with status BadKey; the
record, the stored callback and the configuration are left as they were. -/
theorem inbox_received_handler_bad_key (h : Header) (now : Int) (iter : DictionaryIterator)
    (s : State) (cb : GenericWeatherCallback) (hcb : s.s_callback = some cb)
    (hbad : ∃ t ∈ iter, t.key = .GW_BADKEY)
    (hno : ∀ t ∈ iter, t.key ≠ .GW_REPLY ∧ t.key ≠ .GW_LOCATIONUNAVAILABLE) :
    inbox_received_handler h now iter s
      = some { s with s_status := .BadKey,
                      trace := s.trace ++ [Effect.callback cb s.s_info .BadKey] } := by
  have h1 := dict_find_eq_none_of_forall iter .GW_REPLY (fun t ht => (hno t ht).1)
  have h3 := dict_find_eq_none_of_forall iter .GW_LOCATIONUNAVAILABLE
    (fun t ht => (hno t ht).2)
  obtain ⟨t, ht⟩ := dict_find_isSome_of_exists iter .GW_BADKEY hbad
  simp [inbox_received_handler, handle_reply_absent, h1,
    handle_marker_present .GW_BADKEY .BadKey iter s t cb ht hcb, handle_marker_absent, h3]

/-- Witness for C6 as amended: a bad-key message handled by the ready session. -/
theorem inbox_received_handler_bad_key_witness :
    inbox_received_handler sampleHeader 5 [intTuple .GW_BADKEY 1] ready
      = some
          { ready with
            s_status := .BadKey,
            trace := ready.trace ++ [Effect.callback 7 ready.s_info .BadKey] } :=
  inbox_received_handler_bad_key sampleHeader 5 [intTuple .GW_BADKEY 1] ready 7 (by decide)
    (by decide) (by decide)

/-- Counterexample to C6 as stated: the session is initialized but no fetch has stored a
callback yet; on a message with only the bad-key marker the handler calls through the null
callback pointer, so it faults instead of invoking a callback once. -/
theorem inbox_received_handler_bad_key_no_callback :
    freshSession.s_info = some zeroInfo ∧ freshSession.s_callback = none
      ∧ (dict_find [intTuple .GW_BADKEY 1] .GW_BADKEY).isSome = true
      ∧ dict_find [intTuple .GW_BADKEY 1] .GW_REPLY = none
      ∧ dict_find [intTuple .GW_BADKEY 1] .GW_LOCATIONUNAVAILABLE = none
      ∧ inbox_received_handler sampleHeader 5 [intTuple .GW_BADKEY 1] freshSession = none := by
  decide

/-- C4: in an initialized session, a fetch with a non-null callback while the device is
not connected stores the callback, sets the status to BluetoothDisconnected, invokes the
callback exactly once with that status and returns false; the trace gains that one call and
no outbox begin, write or send. -/
theorem generic_weather_fetch_disconnected (h : Header)
    (begin_result send_result : AppMessageResult) (cb : GenericWeatherCallback) (s : State)
    (info : GenericWeatherInfo) (hinfo : s.s_info = some info) :
    generic_weather_fetch h false begin_result send_result (some cb) s
      = some (false, { s with s_callback := some cb,
                              s_status := .BluetoothDisconnected,
                              trace := s.trace
                                ++ [Effect.callback cb (some info) .BluetoothDisconnected] }) := by
  simp [generic_weather_fetch, hinfo, call_callback, emit]

/-- Witness for C4: a disconnected fetch right after initialization. -/
theorem generic_weather_fetch_disconnected_witness :
    generic_weather_fetch sampleHeader false .APP_MSG_OK .APP_MSG_OK (some 7) freshSession
      = some (false,
          { freshSession with
            s_callback := some 7,
            s_status := .BluetoothDisconnected,
            trace := freshSession.trace
              ++ [Effect.callback 7 (some zeroInfo) .BluetoothDisconnected] }) :=
  generic_weather_fetch_disconnected sampleHeader .APP_MSG_OK .APP_MSG_OK 7 freshSession
    zeroInfo (by decide)

/-- C5: a fetch on a session that is not initialized, or with a null callback, returns
false and leaves the whole state as it was: no callback is invoked, nothing is sent, and the
stored callback, status, record and configuration are unchanged. -/
theorem generic_weather_fetch_rejected (h : Header) (connected : Bool)
    (begin_result send_result : AppMessageResult) (callback : Option GenericWeatherCallback)
    (s : State) (hbad : s.s_info = none ∨ callback = none) :
    generic_weather_fetch h connected begin_result send_result callback s
      = some (false, s) := by
  unfold generic_weather_fetch
  rcases hbad with hn | hn
  · simp [hn]
  · cases hi : s.s_info <;> simp [hn]

/-- Witness for C5: a fetch before initialization, and a fetch with a null callback after
it. -/
theorem generic_weather_fetch_rejected_witness :
    generic_weather_fetch sampleHeader true .APP_MSG_OK .APP_MSG_OK (some 7) boot
        = some (false, boot)
      ∧ generic_weather_fetch sampleHeader true .APP_MSG_OK .APP_MSG_OK none ready
        = some (false, ready) :=
  ⟨generic_weather_fetch_rejected sampleHeader true .APP_MSG_OK .APP_MSG_OK (some 7) boot
      (Or.inl (by decide)),
   generic_weather_fetch_rejected sampleHeader true .APP_MSG_OK .APP_MSG_OK none ready
      (Or.inr rfl)⟩

/-- C3: in an initialized session whose key buffer holds a C string, a fetch with a
non-null callback while the device is connected and both `app_message_outbox_begin` and
`app_message_outbox_send` succeed returns true, stores the callback, sets the status to
Pending and invokes the callback exactly once, inside the call, with the info record and
status Pending. -/
theorem generic_weather_fetch_sent (h : Header) (cb : GenericWeatherCallback) (s : State)
    (info : GenericWeatherInfo) (hinfo : s.s_info = some info) (hkey : 0 ∈ s.s_api_key) :
    ∃ s', generic_weather_fetch h true .APP_MSG_OK .APP_MSG_OK (some cb) s = some (true, s')
      ∧ s'.s_callback = some cb ∧ s'.s_status = .Pending ∧ s'.s_info = some info
      ∧ callbacks s'.trace = callbacks s.trace ++ [(cb, some info, .Pending)] := by
  refine ⟨_, generic_weather_fetch_begun h .APP_MSG_OK s info cb hinfo hkey, rfl, rfl, hinfo,
    ?_⟩
  simp [callbacks_append, callbacks_dict_write, callbacks]

/-- Witness for C3: the first fetch of a fresh session. -/
theorem generic_weather_fetch_sent_witness :
    ∃ s', generic_weather_fetch sampleHeader true .APP_MSG_OK .APP_MSG_OK (some 7) freshSession
        = some (true, s')
      ∧ s'.s_callback = some 7 ∧ s'.s_status = .Pending ∧ s'.s_info = some zeroInfo
      ∧ callbacks s'.trace = callbacks freshSession.trace ++ [(7, some zeroInfo, .Pending)] :=
  generic_weather_fetch_sent sampleHeader 7 freshSession zeroInfo (by decide) (by decide)


/-- C7, as amended: after `generic_weather_set_location c`, a fetch whose send succeeds
builds a message that contains neither the latitude nor the longitude field when either
component of `c` is all-ones (0xFFFFFFFF), the GPS sentinel included, and contains both,
with the values of `c`, when both components differ from all-ones. -/
theorem generic_weather_fetch_coordinates (h : Header) (cb : GenericWeatherCallback)
    (s : State) (info : GenericWeatherInfo) (c : GenericWeatherCoordinates)
    (hinfo : s.s_info = some info) (hkey : 0 ∈ s.s_api_key) :
    ∃ (s' : State) (msg : List DictWrite),
      generic_weather_fetch h true .APP_MSG_OK .APP_MSG_OK (some cb)
          (generic_weather_set_location c s) = some (true, s')
      ∧ s'.trace = s.trace ++ Effect.app_message_outbox_begin .APP_MSG_OK ::
          (msg.map Effect.dict_write
            ++ [Effect.app_message_outbox_send .APP_MSG_OK,
                Effect.callback cb (some info) .Pending])
      ∧ (c.latitude = int32_t 0xFFFFFFFF ∨ c.longitude = int32_t 0xFFFFFFFF →
          ∀ w ∈ msg, w.key ≠ .GW_LATITUDE ∧ w.key ≠ .GW_LONGITUDE)
      ∧ (c.latitude ≠ int32_t 0xFFFFFFFF ∧ c.longitude ≠ int32_t 0xFFFFFFFF →
          DictWrite.int32 .GW_LATITUDE c.latitude ∈ msg
            ∧ DictWrite.int32 .GW_LONGITUDE c.longitude ∈ msg) := by
  refine ⟨_, spec_request_message h.GenericWeatherProviderUnknown (cstr s.s_api_key)
      s.s_provider c s.s_feels_like,
    generic_weather_fetch_begun h .APP_MSG_OK (generic_weather_set_location c s) info cb
      hinfo hkey, rfl, ?_, ?_⟩
  · rw [int32_t_all_ones]
    exact spec_request_message_no_coordinates _ _ _ c _
  · rw [int32_t_all_ones]
    exact spec_request_message_coordinates _ _ _ c _

/-- Witness for C7 as amended: a location with both components ordinary. -/
theorem generic_weather_fetch_coordinates_witness :
    ∃ (s' : State) (msg : List DictWrite),
      generic_weather_fetch sampleHeader true .APP_MSG_OK .APP_MSG_OK (some 7)
          (generic_weather_set_location { latitude := 5237403, longitude := 489697 }
            freshSession) = some (true, s')
      ∧ s'.trace = freshSession.trace ++ Effect.app_message_outbox_begin .APP_MSG_OK ::
          (msg.map Effect.dict_write
            ++ [Effect.app_message_outbox_send .APP_MSG_OK,
                Effect.callback 7 (some zeroInfo) .Pending])
      ∧ ((5237403 : Int) = int32_t 0xFFFFFFFF ∨ (489697 : Int) = int32_t 0xFFFFFFFF →
          ∀ w ∈ msg, w.key ≠ .GW_LATITUDE ∧ w.key ≠ .GW_LONGITUDE)
      ∧ ((5237403 : Int) ≠ int32_t 0xFFFFFFFF ∧ (489697 : Int) ≠ int32_t 0xFFFFFFFF →
          DictWrite.int32 .GW_LATITUDE 5237403 ∈ msg
            ∧ DictWrite.int32 .GW_LONGITUDE 489697 ∈ msg) :=
  generic_weather_fetch_coordinates sampleHeader 7 freshSession zeroInfo
    { latitude := 5237403, longitude := 489697 } (by decide) (by decide)

/-- Counterexample to C7 as stated: the pair (0xFFFFFFFF, 489697) is not the sentinel pair,
yet after setting it a successful fetch sends the request marker alone, without latitude or
longitude. -/
theorem generic_weather_fetch_half_sentinel :
    ({ latitude := int32_t 0xFFFFFFFF, longitude := 489697 } : GenericWeatherCoordinates)
        ≠ { latitude := int32_t 0xFFFFFFFF, longitude := int32_t 0xFFFFFFFF }
      ∧ (generic_weather_fetch sampleHeader true .APP_MSG_OK .APP_MSG_OK (some 7)
            (generic_weather_set_location
              { latitude := int32_t 0xFFFFFFFF, longitude := 489697 } freshSession)).map
          (fun r => (r.1, dict_writes r.2.trace))
        = some (true, [DictWrite.uint8 .GW_REQUEST 1]) := by
  decide

/-- C8: in an initialized, connected session whose key buffer holds a C string, once
`app_message_outbox_begin` succeeds the `dict_write_*` calls between it and
`app_message_outbox_send` are exactly the fields of `spec_request_message`, in that order,
for every provider, coordinates, flag and send result; and after
`generic_weather_set_api_key(NULL)` on any 33-byte key buffer the message holds no API key
field. -/
theorem generic_weather_fetch_message :
    (∀ (h : Header) (send_result : AppMessageResult) (cb : GenericWeatherCallback)
        (s : State) (info : GenericWeatherInfo),
        s.s_info = some info → 0 ∈ s.s_api_key →
        ∃ (r : Bool) (s' : State),
          generic_weather_fetch h true .APP_MSG_OK send_result (some cb) s = some (r, s')
          ∧ s'.trace = s.trace ++ Effect.app_message_outbox_begin .APP_MSG_OK ::
              ((spec_request_message h.GenericWeatherProviderUnknown (cstr s.s_api_key)
                  s.s_provider s.s_coordinates s.s_feels_like).map Effect.dict_write
                ++ [Effect.app_message_outbox_send send_result,
                    Effect.callback cb (some info) s'.s_status]))
      ∧ (∀ (h : Header) (send_result : AppMessageResult) (cb : GenericWeatherCallback)
          (s : State) (info : GenericWeatherInfo),
          s.s_info = some info → s.s_api_key.length = 33 →
          ∃ (r : Bool) (s' : State) (msg : List DictWrite),
            generic_weather_fetch h true .APP_MSG_OK send_result (some cb)
              (generic_weather_set_api_key none s) = some (r, s')
            ∧ s'.trace = s.trace ++ Effect.app_message_outbox_begin .APP_MSG_OK ::
                (msg.map Effect.dict_write
                  ++ [Effect.app_message_outbox_send send_result,
                      Effect.callback cb (some info) s'.s_status])
            ∧ ∀ w ∈ msg, w.key ≠ .GW_APIKEY) := by
  constructor
  · intro h send_result cb s info hinfo hkey
    exact ⟨_, _, generic_weather_fetch_begun h send_result s info cb hinfo hkey, rfl⟩
  · intro h send_result cb s info hinfo hlen
    have hne : s.s_api_key ≠ [] := by
      intro he
      rw [he] at hlen
      simp at hlen
    have hkey : 0 ∈ (generic_weather_set_api_key none s).s_api_key :=
      zero_mem_set_zero s.s_api_key hne
    refine ⟨_, _, _, generic_weather_fetch_begun h send_result
      (generic_weather_set_api_key none s) info cb hinfo hkey, rfl, ?_⟩
    have hempty : cstr (generic_weather_set_api_key none s).s_api_key = [] :=
      cstr_set_zero s.s_api_key
    rw [hempty]
    exact spec_request_message_no_api_key _ _ _ _

/-- Witness for C8: the configured session, with its key and after the key is cleared. -/
theorem generic_weather_fetch_message_witness :
    (∃ (r : Bool) (s' : State),
        generic_weather_fetch sampleHeader true .APP_MSG_OK .APP_MSG_OK (some 7) configured
          = some (r, s')
        ∧ s'.trace = configured.trace ++ Effect.app_message_outbox_begin .APP_MSG_OK ::
            ((spec_request_message sampleHeader.GenericWeatherProviderUnknown
                (cstr configured.s_api_key) configured.s_provider configured.s_coordinates
                configured.s_feels_like).map Effect.dict_write
              ++ [Effect.app_message_outbox_send .APP_MSG_OK,
                  Effect.callback 7 (some zeroInfo) s'.s_status]))
      ∧ (∃ (r : Bool) (s' : State) (msg : List DictWrite),
          generic_weather_fetch sampleHeader true .APP_MSG_OK .APP_MSG_OK (some 7)
            (generic_weather_set_api_key none configured) = some (r, s')
          ∧ s'.trace = configured.trace ++ Effect.app_message_outbox_begin .APP_MSG_OK ::
              (msg.map Effect.dict_write
                ++ [Effect.app_message_outbox_send .APP_MSG_OK,
                    Effect.callback 7 (some zeroInfo) s'.s_status])
          ∧ ∀ w ∈ msg, w.key ≠ .GW_APIKEY) :=
  ⟨generic_weather_fetch_message.1 sampleHeader .APP_MSG_OK 7 configured zeroInfo
      (by decide) (by decide),
   generic_weather_fetch_message.2 sampleHeader .APP_MSG_OK 7 configured zeroInfo
      (by decide) (by decide)⟩

/-- C9: after `generic_weather_save key` on a session whose record is `r`, a session that
is initialized anew over the same storage and then runs `generic_weather_load key` holds
`r`, whatever `malloc` left in the new block; and `generic_weather_load` of a key that is
not in storage leaves the state as it was. -/
theorem generic_weather_save_load :
    (∀ (h : Header) (r g : GenericWeatherInfo) (key handle : Nat) (s u : State),
        s.s_info = some r → u.persist = (generic_weather_save key s).persist →
        (generic_weather_load key (generic_weather_init h (some g) handle u)).s_info
          = some r)
      ∧ (∀ (key : Nat) (s : State), persist_exists s.persist key = false →
          generic_weather_load key s = s) := by
  constructor
  · intro h r g key handle s u hinfo hstore
    simp [generic_weather_load, generic_weather_init, emit, hstore, generic_weather_save,
      hinfo, persist_exists, persist_read_data, persist_write_data, List.lookup]
  · intro key s hex
    unfold generic_weather_load
    cases hi : s.s_info <;> simp [hex]

/-- Witness for C9: the answered session saves under key 42, is initialized again and loads;
and a load of key 42 from empty storage changes nothing. -/
theorem generic_weather_save_load_witness :
    (generic_weather_load 42
        (generic_weather_init sampleHeader (some zeroInfo) 2
          (generic_weather_save 42 answered))).s_info
        = some (spec_reply_record sampleHeader 1700000123 sampleReply zeroInfo)
      ∧ generic_weather_load 42 freshSession = freshSession :=
  ⟨generic_weather_save_load.1 sampleHeader
      (spec_reply_record sampleHeader 1700000123 sampleReply zeroInfo) zeroInfo 42 2 answered
      (generic_weather_save 42 answered) rfl rfl,
   generic_weather_save_load.2 42 freshSession (by decide)⟩

end GenericWeather
